import Mathlib

/-!
Verification of the delivery-worker tier of the notification platform
(email and push workers): circuit breaker, delivery engine (template
fetch, render, provider send with bounded retry), and queue consumer
(status writes, requeue, dead-letter, ack).

The definitions below are a shallow embedding of the Python sources:
  * apps/push_service/app/services/circuit_breaker.py (identical copy is
    imported by the email service),
  * apps/email_service/app/services/email_sender.py (send_email; the push
    variant send_push in apps/push_service/app/services/push_sender.py has
    the same control flow),
  * apps/email_service/app/services/queue_consumer.py (_process_message,
    _update_status, _requeue_message, _send_to_dlq; the push consumer is
    identical up to the routing key),
  * apps/push_service/app/services/push_sender.py (_detect_platform and the
    platform dispatch in send_push).

Wall-clock time (Python time.time()) is modelled as an integer; machine
floats never overflow here and only ordering/subtraction of timestamps is
used by the code.
-/

/-- States of the circuit breaker, from class CircuitState in
circuit_breaker.py (CLOSED / OPEN / HALF_OPEN). `open` is a Lean keyword,
hence the trailing underscore. -/
inductive CircuitState where
  | closed
  | open_
  | half_open
deriving DecidableEq, Repr

/-- In-memory state of one CircuitBreaker instance, from
CircuitBreaker.__init__ in circuit_breaker.py. Timestamps are integer
seconds; `last_failure_time`/`last_success_time` start as None. -/
structure CircuitBreaker where
  name : String
  failure_threshold : Nat
  timeout : Int
  recovery_timeout : Int
  state : CircuitState
  failure_count : Nat
  last_failure_time : Option Int
  last_success_time : Option Int
deriving DecidableEq, Repr

/-- A freshly constructed breaker (end of CircuitBreaker.__init__):
state CLOSED, failure_count 0, no recorded failure or success time. -/
def CircuitBreaker.initial (name : String) (failure_threshold : Nat)
    (timeout recovery_timeout : Int) : CircuitBreaker :=
  { name := name
    failure_threshold := failure_threshold
    timeout := timeout
    recovery_timeout := recovery_timeout
    state := .closed
    failure_count := 0
    last_failure_time := none
    last_success_time := none }

/-- CircuitBreaker._should_attempt_reset: true when no failure was ever
recorded, else when at least `timeout` seconds elapsed since the last
failure. -/
def CircuitBreaker.shouldAttemptReset (cb : CircuitBreaker) (now : Int) : Bool :=
  match cb.last_failure_time with
  | none => true
  | some t => cb.timeout ≤ now - t

/-- CircuitBreaker._time_until_retry: seconds until the circuit can be
probed again (0 when no failure recorded). -/
def CircuitBreaker.timeUntilRetry (cb : CircuitBreaker) (now : Int) : Int :=
  match cb.last_failure_time with
  | none => 0
  | some t => max 0 (cb.timeout - (now - t))

/-- Message text of the CircuitBreakerError raised in CircuitBreaker.call
when the circuit is OPEN. -/
def CircuitBreaker.openMsg (cb : CircuitBreaker) (now : Int) : String :=
  "Circuit breaker '" ++ cb.name ++ "' is OPEN. Service unavailable. Retry after "
    ++ toString (cb.timeUntilRetry now) ++ "s"

/-- Admission part of CircuitBreaker.call: the state check performed
before the wrapped operation runs. `none` means the call raised
CircuitBreakerError and the wrapped operation was NOT invoked; `some cb'`
is the breaker state after the (possible) OPEN → HALF_OPEN transition,
with the wrapped operation about to run. -/
def CircuitBreaker.preCheck (cb : CircuitBreaker) (now : Int) : Option CircuitBreaker :=
  match cb.state with
  | .open_ =>
    if cb.shouldAttemptReset now then some { cb with state := .half_open }
    else none
  | _ => some cb

/-- CircuitBreaker._on_success. In the CLOSED branch the source resets
`failure_count` only when it is positive, which yields the same state as
resetting unconditionally. -/
def CircuitBreaker.onSuccess (cb : CircuitBreaker) (now : Int) : CircuitBreaker :=
  let cb' := { cb with last_success_time := some now }
  match cb'.state with
  | .half_open => { cb' with state := .closed, failure_count := 0 }
  | .closed => { cb' with failure_count := 0 }
  | .open_ => cb'

/-- CircuitBreaker._on_failure: increment the counter, stamp the failure
time, and open the circuit once the threshold is reached (the source
assigns `state = OPEN` only when not already OPEN, which yields the same
state). -/
def CircuitBreaker.onFailure (cb : CircuitBreaker) (now : Int) : CircuitBreaker :=
  let cb' := { cb with
    failure_count := cb.failure_count + 1
    last_failure_time := some now }
  if cb'.failure_threshold ≤ cb'.failure_count then { cb' with state := .open_ }
  else cb'

/-- Result of one wrapped remote operation as seen by the caller of
CircuitBreaker.call: `ok` — the awaited coroutine returned; `err msg` —
it raised an exception whose string form is `msg`. -/
inductive StageResult where
  | ok
  | err (msg : String)
deriving DecidableEq, Repr

/-- Outcome of CircuitBreaker.call. `rejected msg` records that
CircuitBreakerError `msg` was raised and the wrapped operation was not
invoked; the `invoked…` outcomes record that the wrapped operation ran. -/
inductive CallOutcome where
  | rejected (msg : String)
  | invokedOk
  | invokedFail (msg : String)
deriving DecidableEq, Repr

/-- Whether the outcome is a CircuitBreakerError rejection. -/
def CallOutcome.isRejected : CallOutcome → Bool
  | .rejected _ => true
  | _ => false

/-- CircuitBreaker.call, for one invocation whose wrapped operation (when
invoked) behaves as `op`: admission check, then _on_success or _on_failure
on the operation's result, which is re-raised / returned to the caller. -/
def CircuitBreaker.call (cb : CircuitBreaker) (now : Int) (op : StageResult) :
    CircuitBreaker × CallOutcome :=
  match cb.preCheck now with
  | none => (cb, .rejected (cb.openMsg now))
  | some cb' =>
    match op with
    | .ok => (cb'.onSuccess now, .invokedOk)
    | .err m => ((cb'.onFailure now), .invokedFail m)

/-- Fold of CircuitBreaker.call over a list of call times, every wrapped
operation failing with message `m` (consecutive failing calls to the
peer). -/
def failRun (m : String) : CircuitBreaker → List Int → CircuitBreaker
  | cb, [] => cb
  | cb, t :: ts => failRun m (cb.call t (.err m)).1 ts

/-- Concrete breaker used in the C3 witness: threshold 2, timeout 60. -/
def cbC3 : CircuitBreaker := CircuitBreaker.initial "smtp" 2 60 30

/-- Reachable breaker states. A breaker is process-wide and mutated by all
in-flight handlers; CircuitBreaker.call decomposes into the admission
check (possible OPEN → HALF_OPEN transition) and, later, _on_success or
_on_failure applied to the then-current shared state. Allowing the
completion steps at arbitrary times and interleavings over-approximates
every concurrent schedule; `reset` is the manual admin reset. -/
inductive Reachable : CircuitBreaker → Prop
  | init (name : String) (failure_threshold : Nat) (timeout recovery_timeout : Int) :
      Reachable (CircuitBreaker.initial name failure_threshold timeout recovery_timeout)
  | preCheckStep {cb cb' : CircuitBreaker} (now : Int) :
      Reachable cb → cb.preCheck now = some cb' → Reachable cb'
  | successStep {cb : CircuitBreaker} (now : Int) :
      Reachable cb → Reachable (cb.onSuccess now)
  | failureStep {cb : CircuitBreaker} (now : Int) :
      Reachable cb → Reachable (cb.onFailure now)
  | resetStep {cb : CircuitBreaker} :
      Reachable cb → Reachable { cb with
        state := .closed, failure_count := 0, last_failure_time := none }

/-- Concrete OPEN breaker used by the C4 and C10 witnesses: threshold 1,
timeout 60, one failure recorded at time 0. -/
def cbOpenW : CircuitBreaker :=
  (CircuitBreaker.initial "fcm_api" 1 60 30).onFailure 0

/-- Concrete reachable HALF_OPEN breaker for the C10 witness: the
threshold-1 breaker opened at time 0, probed at time 60. -/
def cbHalfOpenW : CircuitBreaker := { cbOpenW with state := .half_open }

/-- Behaviour of the three remote/local steps of one inner attempt of the
Delivery Engine (send_email in email_sender.py; send_push in
push_sender.py is structurally identical): the template-service fetch
(wrapped in the template breaker), the local Jinja2 render, and the
provider send (wrapped in the provider breaker). -/
structure AttemptEnv where
  fetch : StageResult
  render : StageResult
  provider : StageResult
deriving DecidableEq, Repr

/-- Classification of one inner attempt, mirroring the except clauses of
send_email: CircuitBreakerError from either breaker returns immediately
(shortCircuit); every other exception falls into the generic handler and
is retryable. `providerInvoked` records whether the provider operation
actually ran on this attempt. -/
inductive AttemptResult where
  | success (tb pb : CircuitBreaker)
  | shortCircuit (msg : String) (tb pb : CircuitBreaker)
  | retryable (msg : String) (providerInvoked : Bool) (tb pb : CircuitBreaker)
deriving DecidableEq, Repr

/-- One iteration of the try block of send_email:
template_circuit.call(_fetch_template), _render_template (raising
ValueError("Template rendering error: …") on failure, outside any
breaker), then smtp_circuit.call(_send_via_smtp). -/
def runAttempt (e : AttemptEnv) (tb pb : CircuitBreaker) (now : Int) : AttemptResult :=
  match tb.call now e.fetch with
  | (tb', .rejected m) => .shortCircuit m tb' pb
  | (tb', .invokedFail m) => .retryable m false tb' pb
  | (tb', .invokedOk) =>
    match e.render with
    | .err m => .retryable ("Template rendering error: " ++ m) false tb' pb
    | .ok =>
      match pb.call now e.provider with
      | (pb', .rejected m) => .shortCircuit m tb' pb'
      | (pb', .invokedFail m) => .retryable m true tb' pb'
      | (pb', .invokedOk) => .success tb' pb'

/-- Observable result of one send_email invocation: the returned
(ok, error) pair, the number of inner attempts entered, the back-off
sleeps performed (in order), the number of provider invocations, and the
final breaker states. -/
structure EngineResult where
  ok : Bool
  error : Option String
  attempts : Nat
  sleeps : List Nat
  providerAttempts : Nat
  tb : CircuitBreaker
  pb : CircuitBreaker
deriving DecidableEq, Repr

/-- The retry loop of send_email, structurally recursive on the number of
remaining loop iterations (`fuel`); `attempt` is the 1-based loop counter
of `for attempt in range(1, max_retry_attempts + 1)` and `lastErr` the
running `last_error`. On a retryable failure with `attempt <
max_retry_attempts` the engine sleeps `retry_base_delay ** attempt`
seconds and retries; after the final attempt it returns
(False, last_error); a CircuitBreakerError or a success returns at once. -/
def deliverLoop (cfg_max cfg_base : Nat) (env : Nat → AttemptEnv) :
    Nat → Nat → Option String → CircuitBreaker → CircuitBreaker → Int → EngineResult
  | 0, _, lastErr, tb, pb, _ =>
    { ok := false, error := lastErr, attempts := 0, sleeps := [],
      providerAttempts := 0, tb := tb, pb := pb }
  | fuel + 1, attempt, lastErr, tb, pb, now =>
    match runAttempt (env attempt) tb pb now with
    | .success tb' pb' =>
      { ok := true, error := none, attempts := 1, sleeps := [],
        providerAttempts := 1, tb := tb', pb := pb' }
    | .shortCircuit m tb' pb' =>
      { ok := false, error := some m, attempts := 1, sleeps := [],
        providerAttempts := 0, tb := tb', pb := pb' }
    | .retryable m pi tb' pb' =>
      if attempt < cfg_max then
        let d := cfg_base ^ attempt
        let rest := deliverLoop cfg_max cfg_base env fuel (attempt + 1) (some m)
          tb' pb' (now + (d : Int))
        { ok := rest.ok, error := rest.error, attempts := rest.attempts + 1,
          sleeps := d :: rest.sleeps,
          providerAttempts := (if pi then 1 else 0) + rest.providerAttempts,
          tb := rest.tb, pb := rest.pb }
      else
        { ok := false, error := some m, attempts := 1, sleeps := [],
          providerAttempts := if pi then 1 else 0, tb := tb', pb := pb' }

/-- Remainder of one send_email invocation starting at inner attempt
`attempt` (the fuel `max_retry_attempts + 1 - attempt` is exactly the
number of loop iterations left). -/
def deliverFrom (cfg_max cfg_base : Nat) (env : Nat → AttemptEnv) (attempt : Nat)
    (lastErr : Option String) (tb pb : CircuitBreaker) (now : Int) : EngineResult :=
  deliverLoop cfg_max cfg_base env (cfg_max + 1 - attempt) attempt lastErr tb pb now

/-- EmailSender.send_email (and PushSender.send_push): the full retry loop
from attempt 1 with last_error = None. `cfg_max` is
settings.max_retry_attempts and `cfg_base` settings.retry_base_delay. -/
def sendEmail (cfg_max cfg_base : Nat) (env : Nat → AttemptEnv)
    (tb pb : CircuitBreaker) (now : Int) : EngineResult :=
  deliverFrom cfg_max cfg_base env 1 none tb pb now

/-- Concrete OPEN template breaker and idle provider breaker for the C5
witness. -/
def tbOpenC5 : CircuitBreaker :=
  { name := "template_service", failure_threshold := 5, timeout := 60,
    recovery_timeout := 30, state := .open_, failure_count := 5,
    last_failure_time := some 0, last_success_time := none }

def pbIdle : CircuitBreaker := CircuitBreaker.initial "smtp" 5 60 30

def envAllOk : Nat → AttemptEnv := fun _ => ⟨.ok, .ok, .ok⟩

def envNetFail : Nat → AttemptEnv := fun _ => ⟨.err "net", .ok, .ok⟩

def tbIdle : CircuitBreaker := CircuitBreaker.initial "template_service" 5 60 30

/-- Environment falsifying C2: the template fetch succeeds and the render
step fails ("malformed template") on every attempt. -/
def envRenderBad : Nat → AttemptEnv := fun _ => ⟨.ok, .err "bad", .ok⟩

/-- Outer requeue chain of the Consumer, counting provider-send attempts.
A job consumed with retry_count = r runs the engine (`runs 0`); per
_process_message, on engine success the chain stops, on failure it
continues with a republished copy carrying retry_count r + 1 exactly when
r < max_retry_attempts, and dead-letters otherwise. `fuel` bounds the
remaining republishes and equals max_retry_attempts - r at the top. -/
def consumeLoop (maxR : Nat) : Nat → (Nat → EngineResult) → Nat → Nat
  | 0, runs, _ => (runs 0).providerAttempts
  | fuel + 1, runs, r =>
    if (runs 0).ok then (runs 0).providerAttempts
    else if r < maxR then
      (runs 0).providerAttempts + consumeLoop maxR fuel (fun k => runs (k + 1)) (r + 1)
    else (runs 0).providerAttempts

/-- Total provider-send attempts over the initial delivery and all
republished redeliveries of one job whose first consumed copy carries
retry_count = r; `runs k` is the engine result of the k-th consumption. -/
def consumeChain (maxR : Nat) (runs : Nat → EngineResult) (r : Nat) : Nat :=
  consumeLoop maxR (maxR - r) runs r

/-- Decoded queue job (EmailMessage in email_schema.py / PushMessage in
push_schema.py; `recipient` is user_email resp. push_token, `platform` is
push-only and None for email). The source field `variables` is spelled
`vars` here (`variables` is reserved in Lean); it and `metadata` are
opaque string maps — the consumer never inspects them, it only copies
them into the requeued / dead-lettered payload. -/
structure Job where
  notification_id : String
  user_id : String
  recipient : String
  template_code : String
  vars : List (String × String)
  priority : Nat
  request_id : Option String
  metadata : Option (List (String × String))
  platform : Option String
  created_at : Int
  retry_count : Nat
deriving DecidableEq, Repr

/-- NotificationStatus in email_schema.py / push_schema.py. -/
inductive NotificationStatus where
  | pending
  | delivered
  | failed
deriving DecidableEq, Repr

/-- Dead-letter payload built in _send_to_dlq: the job's JSON-serialized
fields plus final_error and failed_at (datetime.utcnow()). -/
structure DLQRecord where
  job : Job
  final_error : Option String
  failed_at : Int
deriving DecidableEq, Repr

/-- Externally observable actions of one _process_message handler run, in
order: a status write to the store, a publish on the exchange (a requeued
job or a dead-letter record, with the delivery-persistence flag), and the
ack performed by `async with message.process()` on normal exit. -/
inductive ConsumerEvent where
  | setStatus (notification_id : String) (status : NotificationStatus)
      (error : Option String) (retry_count : Nat)
  | publishJob (routing_key : String) (job : Job) (persistent : Bool)
  | publishDLQ (routing_key : String) (record : DLQRecord) (persistent : Bool)
  | ack
deriving DecidableEq, Repr

/-- Whether an event is an exchange publish. -/
def ConsumerEvent.isPublish : ConsumerEvent → Bool
  | .publishJob _ _ _ => true
  | .publishDLQ _ _ _ => true
  | _ => false

/-- Behaviour of the handler's effectful collaborators during one run:
whether self.exchange is set, and whether the Redis status write, the
requeue publish and the DLQ publish succeed (each failure is caught and
only logged by _update_status / _requeue_message / _send_to_dlq). -/
structure ConsumerEnv where
  exchange_set : Bool
  status_write_ok : Bool
  requeue_publish_ok : Bool
  dlq_publish_ok : Bool
deriving DecidableEq, Repr

/-- _update_status: the Redis write is attempted and any exception is
swallowed; the status record is durably written only when the write
succeeds. -/
def updateStatus (cenv : ConsumerEnv) (notification_id : String)
    (status : NotificationStatus) (error : Option String) (retry_count : Nat) :
    List ConsumerEvent :=
  if cenv.status_write_ok then [.setStatus notification_id status error retry_count]
  else []

/-- _requeue_message: increment the message's retry_count, then — when
self.exchange is set — publish the clone persistently on the channel
routing key; a publish exception is swallowed. -/
def requeueMessage (cenv : ConsumerEnv) (channel_key : String) (job : Job) :
    List ConsumerEvent :=
  if cenv.exchange_set then
    if cenv.requeue_publish_ok then
      [.publishJob channel_key { job with retry_count := job.retry_count + 1 } true]
    else []
  else []

/-- _send_to_dlq: when self.exchange is set, publish the job's fields plus
final_error and failed_at persistently on routing key "failed"; a publish
exception is swallowed. -/
def sendToDlq (cenv : ConsumerEnv) (job : Job) (error : Option String) (now : Int) :
    List ConsumerEvent :=
  if cenv.exchange_set then
    if cenv.dlq_publish_ok then
      [.publishDLQ "failed" { job := job, final_error := error, failed_at := now } true]
    else []
  else []

/-- _process_message for a message whose body decodes to `job`, with the
Delivery Engine returning `(ok, err)` (send_email / send_push is total:
it returns a pair and raises nothing). `max_retry` is
settings.max_retry_attempts and `channel_key` the channel routing key
("email" or "push"). Status pending is written first, then the engine
runs, then delivered — or failed followed by requeue (when retry_count <
max_retry) or dead-letter; the context manager acks on exit in every
case, since every exception of a collaborator is swallowed inside the
handler. -/
def processMessage (max_retry : Nat) (cenv : ConsumerEnv) (channel_key : String)
    (job : Job) (ok : Bool) (err : Option String) (now : Int) : List ConsumerEvent :=
  updateStatus cenv job.notification_id .pending none job.retry_count ++
    (if ok then
      updateStatus cenv job.notification_id .delivered none job.retry_count
    else
      updateStatus cenv job.notification_id .failed err job.retry_count ++
        (if job.retry_count < max_retry then requeueMessage cenv channel_key job
         else sendToDlq cenv job err now)) ++
    [.ack]

/-- The handler environment in which the exchange is set and every
collaborator call succeeds. -/
def envAllGood : ConsumerEnv :=
  { exchange_set := true, status_write_ok := true,
    requeue_publish_ok := true, dlq_publish_ok := true }

/-- Concrete job falsifying C1: consumed with retry_count 0. -/
def jobC1 : Job :=
  { notification_id := "n1", user_id := "u1", recipient := "a@x",
    template_code := "welcome", vars := [("name", "Ada")], priority := 1,
    request_id := some "r1", metadata := none, platform := none,
    created_at := 0, retry_count := 0 }

/-- Environment falsifying C1: the exchange is set but the requeue
publish raises (broker glitch); _requeue_message swallows the exception. -/
def envPublishFails : ConsumerEnv :=
  { exchange_set := true, status_write_ok := true,
    requeue_publish_ok := false, dlq_publish_ok := true }

/-- Hex characters accepted by PushSender._detect_platform (the Python
membership test `c in '0123456789abcdefABCDEF'`). -/
def isHexTokenChar (c : Char) : Bool :=
  "0123456789abcdefABCDEF".toList.contains c

/-- PushSender._detect_platform: "ios" for a token of exactly 64 hex
characters, otherwise "android". -/
def detectPlatform (token : String) : String :=
  if token.length = 64 && token.toList.all isHexTokenChar then "ios" else "android"

/-- The platform chosen in send_push:
`platform = message.platform or self._detect_platform(message.push_token)`.
Python `or` treats None AND the empty string as falsy, so an empty
platform field also falls back to the heuristic. -/
def chosenPlatform (platform : Option String) (token : String) : String :=
  match platform with
  | none => detectPlatform token
  | some p => if p = "" then detectPlatform token else p

/-- The two provider paths of send_push: vendor B (APNS, iOS) and vendor A
(FCM, Android). -/
inductive PushVendor where
  | apns
  | fcm
deriving DecidableEq, Repr

/-- The dispatch in send_push: `if platform == "ios"` → _send_via_apns via
the apns breaker, else (any other platform string) → _send_via_fcm via the
fcm breaker. -/
def chosenVendor (platform : Option String) (token : String) : PushVendor :=
  if chosenPlatform platform token = "ios" then .apns else .fcm

/-- A 64-character all-hex push token. -/
def hexToken64 : String :=
  "0123456789abcdef0123456789abcdef0123456789abcdef0123456789abcdef"

theorem failRun_cons (m : String) (cb : CircuitBreaker) (t : Int) (ts : List Int) :
    failRun m cb (t :: ts) = failRun m (cb.call t (.err m)).1 ts := rfl

/-- A failing call on a CLOSED breaker below threshold keeps it CLOSED and
increments the counter; reaching the threshold opens the circuit. -/
theorem call_err_closed (cb : CircuitBreaker) (t : Int) (m : String)
    (hs : cb.state = .closed) :
    (cb.call t (.err m)).1 =
      (if cb.failure_threshold ≤ cb.failure_count + 1 then
        { cb with failure_count := cb.failure_count + 1,
                  last_failure_time := some t, state := .open_ }
      else
        { cb with failure_count := cb.failure_count + 1,
                  last_failure_time := some t }) := by
  simp only [CircuitBreaker.call, CircuitBreaker.preCheck, hs, CircuitBreaker.onFailure]

/-- Auxiliary induction for C3: consecutive failures from a CLOSED breaker
whose counter plus the number of failures exactly reaches the threshold
leave the breaker OPEN, with the counter at the threshold and the last
failure time stamped with the final call's time. -/
theorem failRun_opens (m : String) :
    ∀ (ts : List Int) (cb : CircuitBreaker), ts ≠ [] →
    cb.state = .closed →
    cb.failure_count + ts.length = cb.failure_threshold →
    (failRun m cb ts).state = .open_ ∧
    (failRun m cb ts).failure_count = cb.failure_threshold ∧
    (failRun m cb ts).last_failure_time = ts.getLast? ∧
    (failRun m cb ts).timeout = cb.timeout ∧
    (failRun m cb ts).failure_threshold = cb.failure_threshold ∧
    (failRun m cb ts).name = cb.name
  | [], _, hne, _, _ => absurd rfl hne
  | [t], cb, _, hs, hcount => by
    have hth : cb.failure_threshold ≤ cb.failure_count + 1 := by
      simp only [List.length] at hcount; omega
    rw [failRun_cons, call_err_closed cb t m hs, if_pos hth]
    refine ⟨rfl, ?_, ?_, rfl, rfl, rfl⟩
    · show cb.failure_count + 1 = cb.failure_threshold
      simp only [List.length] at hcount; omega
    · simp [failRun]
  | t :: t' :: ts, cb, _, hs, hcount => by
    rw [failRun_cons]
    have hlt : ¬ cb.failure_threshold ≤ cb.failure_count + 1 := by
      simp only [List.length] at hcount; omega
    rw [call_err_closed cb t m hs, if_neg hlt]
    have ih := failRun_opens m (t' :: ts)
      { cb with failure_count := cb.failure_count + 1, last_failure_time := some t }
      (by simp) hs (by simp only [List.length] at hcount ⊢; omega)
    rw [List.getLast?_cons_cons]
    exact ih

/-- An OPEN breaker within its timeout window rejects any call unchanged,
without invoking the wrapped operation. -/
theorem call_open_rejects (cb : CircuitBreaker) (now t : Int) (op : StageResult)
    (hs : cb.state = .open_) (hl : cb.last_failure_time = some t)
    (hnow : now - t < cb.timeout) :
    cb.call now op = (cb, .rejected (cb.openMsg now)) := by
  have hr : cb.shouldAttemptReset now = false := by
    simp only [CircuitBreaker.shouldAttemptReset, hl, decide_eq_false_iff_not]
    omega
  simp [CircuitBreaker.call, CircuitBreaker.preCheck, hs, hr]

/-- C3. For every circuit breaker, after `failure_threshold` consecutive
failures (starting from a CLOSED breaker with a zero counter) the breaker
is OPEN, and every subsequent call made while `now - last_failure_time <
timeout_seconds` raises CircuitBreakerError and leaves the breaker
unchanged, without invoking the wrapped operation. -/
theorem breaker_opens_and_fails_fast (cb : CircuitBreaker) (ts : List Int)
    (tlast : Int) (m : String)
    (hstate : cb.state = .closed) (hcount : cb.failure_count = 0)
    (hlen : ts.length = cb.failure_threshold) (hpos : 0 < cb.failure_threshold)
    (hlast : ts.getLast? = some tlast) :
    (failRun m cb ts).state = .open_ ∧
    (failRun m cb ts).failure_count = cb.failure_threshold ∧
    (failRun m cb ts).last_failure_time = some tlast ∧
    ∀ (now : Int) (op : StageResult), now - tlast < cb.timeout →
      (failRun m cb ts).call now op =
        ((failRun m cb ts), .rejected ((failRun m cb ts).openMsg now)) := by
  have hne : ts ≠ [] := by
    intro h; subst h; simp at hlen; omega
  obtain ⟨h1, h2, h3, h4, _, _⟩ := failRun_opens m ts cb hne hstate (by omega)
  refine ⟨h1, h2, by rw [h3, hlast], ?_⟩
  intro now op hnow
  exact call_open_rejects _ now tlast op h1 (by rw [h3, hlast]) (by omega)

/-- Witness for C3 at a concrete input: two consecutive failures (at times
0 and 5) open a threshold-2 breaker, and a call at time 30 (25 seconds
after the last failure, inside the 60-second window) is rejected with the
breaker unchanged. -/
theorem breaker_opens_and_fails_fast_witness :
    (failRun "boom" cbC3 [0, 5]).state = .open_ ∧
    (failRun "boom" cbC3 [0, 5]).failure_count = cbC3.failure_threshold ∧
    (failRun "boom" cbC3 [0, 5]).last_failure_time = some 5 ∧
    (failRun "boom" cbC3 [0, 5]).call 30 .ok =
      ((failRun "boom" cbC3 [0, 5]),
        .rejected ((failRun "boom" cbC3 [0, 5]).openMsg 30)) := by
  obtain ⟨h1, h2, h3, h4⟩ :=
    breaker_opens_and_fails_fast cbC3 [0, 5] 5 "boom"
      rfl rfl (by decide) (by decide) rfl
  exact ⟨h1, h2, h3, h4 30 .ok (by decide)⟩

/-- Invariant of the breaker state machine: in every reachable OPEN or
HALF_OPEN state the failure counter has reached the threshold (the
OPEN → HALF_OPEN transition in CircuitBreaker.call does not touch the
counter). -/
theorem reachable_count_ge_threshold {cb : CircuitBreaker} (h : Reachable cb) :
    cb.state = .open_ ∨ cb.state = .half_open →
    cb.failure_threshold ≤ cb.failure_count := by
  induction h with
  | init name ft t rt =>
    intro hs
    rcases hs with hs | hs <;> simp [CircuitBreaker.initial] at hs
  | preCheckStep now hr hadm ih =>
    rename_i cb cb'
    intro hcase
    unfold CircuitBreaker.preCheck at hadm
    rcases hst : cb.state with h1 | h1 | h1 <;> rw [hst] at hadm
    · simp at hadm
      subst hadm
      rw [hst] at hcase
      simp at hcase
    · by_cases hres : cb.shouldAttemptReset now = true <;> simp [hres] at hadm
      subst hadm
      exact ih (Or.inl hst)
    · simp at hadm
      subst hadm
      exact ih (Or.inr hst)
  | successStep now hr ih =>
    rename_i cb
    intro hs
    unfold CircuitBreaker.onSuccess at hs ⊢
    rcases hst : cb.state with h1 | h1 | h1 <;> simp [hst] at hs ⊢
    · exact ih (Or.inl hst)
  | failureStep now hr ih =>
    rename_i cb
    intro hs
    simp only [CircuitBreaker.onFailure] at hs ⊢
    by_cases hth : cb.failure_threshold ≤ cb.failure_count + 1
    · rw [if_pos hth]
      exact hth
    · rw [if_neg hth] at hs ⊢
      rcases hs with hs | hs
      · exact Nat.le_succ_of_le (ih (Or.inl hs))
      · exact Nat.le_succ_of_le (ih (Or.inr hs))
  | resetStep hr ih =>
    intro hs
    simp at hs

/-- Preservation of the configuration fields by admission and by the two
completion handlers. -/
theorem preCheck_preserves_config {cb cb' : CircuitBreaker} (now : Int)
    (h : cb.preCheck now = some cb') :
    cb'.failure_threshold = cb.failure_threshold ∧ cb'.timeout = cb.timeout ∧
    cb'.failure_count = cb.failure_count ∧
    cb'.last_failure_time = cb.last_failure_time := by
  unfold CircuitBreaker.preCheck at h
  rcases hst : cb.state with h1 | h1 | h1 <;> rw [hst] at h
  · simp at h; subst h; exact ⟨rfl, rfl, rfl, rfl⟩
  · by_cases hres : cb.shouldAttemptReset now = true <;> simp [hres] at h
    subst h; exact ⟨rfl, rfl, rfl, rfl⟩
  · simp at h; subst h; exact ⟨rfl, rfl, rfl, rfl⟩

/-- C4. A reachable breaker that is OPEN with its timeout elapsed lets
the next invocation through after transitioning to HALF_OPEN (the operation is
executed: the outcome is not a rejection). If that probe succeeds, the
breaker is CLOSED with failure_count 0 and the immediately following call
is served without CircuitBreakerError; if the probe fails, the breaker is
OPEN again with last_failure_time re-stamped to the probe's time. -/
theorem breaker_half_open_probe (cb : CircuitBreaker) (t now : Int)
    (hreach : Reachable cb) (hs : cb.state = .open_)
    (hl : cb.last_failure_time = some t) (ht : cb.timeout ≤ now - t) :
    cb.preCheck now = some { cb with state := .half_open } ∧
    (∀ op : StageResult, ((cb.call now op).2).isRejected = false) ∧
    ((cb.call now .ok).1.state = .closed ∧
      (cb.call now .ok).1.failure_count = 0 ∧
      (cb.call now .ok).2 = .invokedOk) ∧
    (∀ (now' : Int) (op : StageResult),
      (((cb.call now .ok).1.call now' op).2).isRejected = false) ∧
    (∀ m : String,
      (cb.call now (.err m)).1.state = .open_ ∧
      (cb.call now (.err m)).1.last_failure_time = some now ∧
      (cb.call now (.err m)).2 = .invokedFail m) := by
  have hres : cb.shouldAttemptReset now = true := by
    simp only [CircuitBreaker.shouldAttemptReset, hl, decide_eq_true_eq]
    omega
  have hadm : cb.preCheck now = some { cb with state := .half_open } := by
    simp [CircuitBreaker.preCheck, hs, hres]
  have hth : cb.failure_threshold ≤ cb.failure_count :=
    reachable_count_ge_threshold hreach (Or.inl hs)
  refine ⟨hadm, ?_, ?_, ?_, ?_⟩
  · intro op
    simp only [CircuitBreaker.call, hadm]
    cases op <;> rfl
  · simp [CircuitBreaker.call, hadm, CircuitBreaker.onSuccess]
  · intro now' op
    simp only [CircuitBreaker.call, hadm]
    have : ((({ cb with state := CircuitState.half_open } : CircuitBreaker).onSuccess
        now)).state = .closed := by
      simp [CircuitBreaker.onSuccess]
    simp only [CircuitBreaker.call, CircuitBreaker.preCheck, this]
    cases op <;> rfl
  · intro m
    simp only [CircuitBreaker.call, hadm, CircuitBreaker.onFailure]
    have : cb.failure_threshold ≤ cb.failure_count + 1 := Nat.le_succ_of_le hth
    simp [this]

theorem cbOpenW_reachable : Reachable cbOpenW :=
  Reachable.failureStep 0 (Reachable.init "fcm_api" 1 60 30)

/-- Witness for C4 at a concrete input: the threshold-1 breaker opened at
time 0 lets a probe through at time 60; a successful probe closes it and the
following call at time 70 is served, and a failing probe at time 60
re-opens it with the failure time re-stamped. -/
theorem breaker_half_open_probe_witness :
    cbOpenW.preCheck 60 = some { cbOpenW with state := .half_open } ∧
    ((cbOpenW.call 60 .ok).1.state = .closed ∧
      (cbOpenW.call 60 .ok).1.failure_count = 0 ∧
      (cbOpenW.call 60 .ok).2 = .invokedOk) ∧
    (((cbOpenW.call 60 .ok).1.call 70 .ok).2).isRejected = false ∧
    ((cbOpenW.call 60 (.err "down")).1.state = .open_ ∧
      (cbOpenW.call 60 (.err "down")).1.last_failure_time = some 60 ∧
      (cbOpenW.call 60 (.err "down")).2 = .invokedFail "down") := by
  obtain ⟨h1, _, h3, h4, h5⟩ :=
    breaker_half_open_probe cbOpenW 0 60 cbOpenW_reachable
      (by decide) (by decide) (by decide)
  exact ⟨h1, h3, h4 70 .ok, h5 "down"⟩

/-- C10. In every reachable HALF_OPEN breaker state the failure counter is
at least the threshold (the OPEN → HALF_OPEN transition does not reset
it), so a single failing probe in HALF_OPEN immediately re-opens the
circuit; and a call that does not end in _on_success never brings the
counter to 0 from a positive value — only a successful call resets it. -/
theorem half_open_failure_count_invariant (cb : CircuitBreaker)
    (hreach : Reachable cb) (hs : cb.state = .half_open) :
    cb.failure_threshold ≤ cb.failure_count ∧
    (∀ now : Int, (cb.onFailure now).state = .open_) ∧
    (∀ (now : Int) (op : StageResult),
      (cb.call now op).1.failure_count = 0 →
      cb.failure_count = 0 ∨ (cb.call now op).2 = .invokedOk) := by
  have hth := reachable_count_ge_threshold hreach (Or.inr hs)
  refine ⟨hth, ?_, ?_⟩
  · intro now
    simp only [CircuitBreaker.onFailure]
    have : cb.failure_threshold ≤ cb.failure_count + 1 := Nat.le_succ_of_le hth
    simp [this]
  · intro now op hc
    rcases op with _ | m
    · exact Or.inr (by simp [CircuitBreaker.call, CircuitBreaker.preCheck, hs])
    · exfalso
      simp only [CircuitBreaker.call, CircuitBreaker.preCheck, hs] at hc
      simp only [CircuitBreaker.onFailure] at hc
      by_cases hb : cb.failure_threshold ≤ cb.failure_count + 1 <;>
        simp [hb] at hc

theorem cbHalfOpenW_reachable : Reachable cbHalfOpenW :=
  Reachable.preCheckStep 60 cbOpenW_reachable (by decide)

/-- Witness for C10 at a concrete input: the reachable HALF_OPEN breaker
has failure_count ≥ threshold, a failing probe at time 99 re-opens it,
and a failure-ending call at time 99 does not reset the counter. -/
theorem half_open_failure_count_invariant_witness :
    cbHalfOpenW.failure_threshold ≤ cbHalfOpenW.failure_count ∧
    (cbHalfOpenW.onFailure 99).state = .open_ ∧
    ((cbHalfOpenW.call 99 (.err "down")).1.failure_count = 0 →
      cbHalfOpenW.failure_count = 0 ∨
      (cbHalfOpenW.call 99 (.err "down")).2 = .invokedOk) := by
  obtain ⟨h1, h2, h3⟩ :=
    half_open_failure_count_invariant cbHalfOpenW cbHalfOpenW_reachable (by decide)
  exact ⟨h1, h2 99, h3 99 (.err "down")⟩

/-- Unfolding of deliverFrom for an attempt that actually runs
(`attempt ≤ max_retry_attempts`). -/
theorem deliverFrom_step (cfg_max cfg_base : Nat) (env : Nat → AttemptEnv)
    (attempt : Nat) (lastErr : Option String) (tb pb : CircuitBreaker) (now : Int)
    (h : attempt ≤ cfg_max) :
    deliverFrom cfg_max cfg_base env attempt lastErr tb pb now =
      match runAttempt (env attempt) tb pb now with
      | .success tb' pb' =>
        { ok := true, error := none, attempts := 1, sleeps := [],
          providerAttempts := 1, tb := tb', pb := pb' }
      | .shortCircuit m tb' pb' =>
        { ok := false, error := some m, attempts := 1, sleeps := [],
          providerAttempts := 0, tb := tb', pb := pb' }
      | .retryable m pi tb' pb' =>
        if attempt < cfg_max then
          let d := cfg_base ^ attempt
          let rest := deliverFrom cfg_max cfg_base env (attempt + 1) (some m)
            tb' pb' (now + (d : Int))
          { ok := rest.ok, error := rest.error, attempts := rest.attempts + 1,
            sleeps := d :: rest.sleeps,
            providerAttempts := (if pi then 1 else 0) + rest.providerAttempts,
            tb := rest.tb, pb := rest.pb }
        else
          { ok := false, error := some m, attempts := 1, sleeps := [],
            providerAttempts := if pi then 1 else 0, tb := tb', pb := pb' } := by
  have hk : cfg_max + 1 - attempt = (cfg_max - attempt) + 1 := by omega
  have hk' : cfg_max - attempt = cfg_max + 1 - (attempt + 1) := by omega
  unfold deliverFrom
  rw [hk]
  simp only [deliverLoop]
  rcases runAttempt (env attempt) tb pb now with _ | _ | ⟨m, pi, tb', pb'⟩
  · rfl
  · rfl
  · by_cases hlt : attempt < cfg_max
    · simp only [if_pos hlt, hk']
    · simp only [if_neg hlt]

/-- C5. On any inner attempt that runs, a CircuitBreakerError from the
template breaker (first conjunct) or — with the fetch and render
succeeding — from the provider breaker (second conjunct) makes the engine
return (False, the error's message) at once: one attempt entered, no
sleep, no provider invocation beyond those already made, no further
attempts in this invocation. -/
theorem circuit_open_short_circuits_engine (cfg_max cfg_base : Nat)
    (env : Nat → AttemptEnv) (attempt : Nat) (lastErr : Option String)
    (tb pb : CircuitBreaker) (now : Int)
    (hrun : attempt ≤ cfg_max) :
    (∀ (tb' : CircuitBreaker) (m : String),
      tb.call now (env attempt).fetch = (tb', .rejected m) →
      deliverFrom cfg_max cfg_base env attempt lastErr tb pb now =
        { ok := false, error := some m, attempts := 1, sleeps := [],
          providerAttempts := 0, tb := tb', pb := pb }) ∧
    (∀ (tb' pb' : CircuitBreaker) (m : String),
      tb.call now (env attempt).fetch = (tb', .invokedOk) →
      (env attempt).render = .ok →
      pb.call now (env attempt).provider = (pb', .rejected m) →
      deliverFrom cfg_max cfg_base env attempt lastErr tb pb now =
        { ok := false, error := some m, attempts := 1, sleeps := [],
          providerAttempts := 0, tb := tb', pb := pb' }) := by
  constructor
  · intro tb' m hf
    rw [deliverFrom_step cfg_max cfg_base env attempt lastErr tb pb now hrun]
    simp only [runAttempt, hf]
  · intro tb' pb' m hf hr hp
    rw [deliverFrom_step cfg_max cfg_base env attempt lastErr tb pb now hrun]
    simp only [runAttempt, hf, hr, hp]

/-- Witness for C5 at a concrete input: with the template breaker OPEN 10
seconds into its 60-second window, send_email returns at once with the
breaker's message, one attempt, no sleeps and no provider attempt. -/
theorem circuit_open_short_circuits_engine_witness :
    deliverFrom 3 2 envAllOk 1 none tbOpenC5 pbIdle 10 =
      { ok := false, error := some (tbOpenC5.openMsg 10), attempts := 1,
        sleeps := [], providerAttempts := 0, tb := tbOpenC5, pb := pbIdle } :=
  (circuit_open_short_circuits_engine 3 2 envAllOk 1 none tbOpenC5 pbIdle 10
    (by decide)).1 tbOpenC5 (tbOpenC5.openMsg 10) (by decide)

/-- C8. A retryable failure on inner attempt k sleeps exactly
retry_base_delay ** k seconds before attempt k+1 when k is not the last
attempt (first conjunct: the sleep list continues with the remainder of
the run started at attempt k+1 at time now + base ** k), and no sleep
happens after the final attempt (second conjunct). -/
theorem backoff_sleep_schedule (cfg_max cfg_base : Nat) (env : Nat → AttemptEnv)
    (attempt : Nat) (lastErr : Option String) (tb tb' pb pb' : CircuitBreaker)
    (now : Int) (m : String) (pi : Bool)
    (hrun : attempt ≤ cfg_max)
    (hk : runAttempt (env attempt) tb pb now = .retryable m pi tb' pb') :
    (attempt < cfg_max →
      (deliverFrom cfg_max cfg_base env attempt lastErr tb pb now).sleeps =
        cfg_base ^ attempt ::
          (deliverFrom cfg_max cfg_base env (attempt + 1) (some m) tb' pb'
            (now + ((cfg_base ^ attempt : Nat) : Int))).sleeps) ∧
    (attempt = cfg_max →
      (deliverFrom cfg_max cfg_base env attempt lastErr tb pb now).sleeps = []) := by
  constructor
  · intro hlt
    rw [deliverFrom_step cfg_max cfg_base env attempt lastErr tb pb now hrun]
    simp only [hk, if_pos hlt]
  · intro heq
    rw [deliverFrom_step cfg_max cfg_base env attempt lastErr tb pb now hrun]
    have hnat : ¬ attempt < cfg_max := by omega
    simp only [hk, if_neg hnat]

/-- Witness for C8 at a concrete input: a retryable failure on attempt 1
of 3 with base 2 sleeps 2 ** 1 seconds before attempt 2. -/
theorem backoff_sleep_schedule_witness :
    (deliverFrom 3 2 envNetFail 1 none tbIdle pbIdle 0).sleeps =
      2 ^ 1 :: (deliverFrom 3 2 envNetFail 2 (some "net") (tbIdle.onFailure 0) pbIdle
        (0 + ((2 ^ 1 : Nat) : Int))).sleeps :=
  (backoff_sleep_schedule 3 2 envNetFail 1 none tbIdle (tbIdle.onFailure 0) pbIdle
    pbIdle 0 "net" false (by decide) (by decide)).1 (by decide)

/-- Counterexample for C2 as stated: with max_retry_attempts = 3 and
retry_base_delay = 2, a job whose template fetch succeeds and whose
render fails is NOT treated as terminal by send_email — the engine enters
all 3 inner attempts and sleeps 2 and then 4 seconds between them, before
returning (False, "Template rendering error: bad"). -/
theorem render_error_is_retried_counterexample :
    (sendEmail 3 2 envRenderBad tbIdle pbIdle 0).attempts = 3 ∧
    (sendEmail 3 2 envRenderBad tbIdle pbIdle 0).sleeps = [2, 4] ∧
    (sendEmail 3 2 envRenderBad tbIdle pbIdle 0).ok = false ∧
    (sendEmail 3 2 envRenderBad tbIdle pbIdle 0).error =
      some ("Template rendering error: " ++ "bad") := by decide

/-- A successful call on a CLOSED breaker stays CLOSED with the counter
reset and the success time stamped. -/
theorem call_ok_closed (cb : CircuitBreaker) (t : Int) (hs : cb.state = .closed) :
    cb.call t .ok =
      ({ cb with last_success_time := some t, failure_count := 0 }, .invokedOk) := by
  simp only [CircuitBreaker.call, CircuitBreaker.preCheck, hs, CircuitBreaker.onSuccess]

/-- An attempt whose fetch succeeds (through a CLOSED template breaker)
and whose render fails is classified retryable with the ValueError text of
_render_template, without invoking the provider. -/
theorem runAttempt_render_err (e : AttemptEnv) (tb pb : CircuitBreaker) (now : Int)
    (m : String) (hf : e.fetch = .ok) (hr : e.render = .err m)
    (hs : tb.state = .closed) :
    runAttempt e tb pb now =
      .retryable ("Template rendering error: " ++ m) false
        { tb with last_success_time := some now, failure_count := 0 } pb := by
  simp only [runAttempt, hf, call_ok_closed tb now hs, hr]

/-- Induction core for the amended C2: from any attempt a with n further
attempts to go, an always-render-failing job yields n+1 attempts, the
full back-off schedule, no provider attempts and untouched breakers. -/
theorem render_error_aux (cfg_max cfg_base : Nat) (env : Nat → AttemptEnv) (m : String)
    (henv : ∀ k, 1 ≤ k → k ≤ cfg_max → (env k).fetch = .ok ∧ (env k).render = .err m)
    (n : Nat) :
    ∀ (attempt : Nat) (tb pb : CircuitBreaker) (now : Int) (lastErr : Option String),
    1 ≤ attempt → attempt + n = cfg_max → tb.state = .closed →
    (deliverFrom cfg_max cfg_base env attempt lastErr tb pb now).ok = false ∧
    (deliverFrom cfg_max cfg_base env attempt lastErr tb pb now).error =
      some ("Template rendering error: " ++ m) ∧
    (deliverFrom cfg_max cfg_base env attempt lastErr tb pb now).attempts = n + 1 ∧
    (deliverFrom cfg_max cfg_base env attempt lastErr tb pb now).sleeps =
      (List.range' attempt n).map (cfg_base ^ ·) ∧
    (deliverFrom cfg_max cfg_base env attempt lastErr tb pb now).providerAttempts = 0 ∧
    (deliverFrom cfg_max cfg_base env attempt lastErr tb pb now).pb = pb ∧
    (deliverFrom cfg_max cfg_base env attempt lastErr tb pb now).tb.failure_count = 0 ∧
    (deliverFrom cfg_max cfg_base env attempt lastErr tb pb now).tb.state = .closed := by
  induction n with
  | zero =>
    intro attempt tb pb now lastErr h1 h2 htb
    obtain ⟨hf, hr⟩ := henv attempt h1 (by omega)
    rw [deliverFrom_step cfg_max cfg_base env attempt lastErr tb pb now (by omega),
      runAttempt_render_err (env attempt) tb pb now m hf hr htb]
    have hnl : ¬ attempt < cfg_max := by omega
    simp [if_neg hnl, List.range'_zero, htb]
  | succ n ih =>
    intro attempt tb pb now lastErr h1 h2 htb
    obtain ⟨hf, hr⟩ := henv attempt h1 (by omega)
    rw [deliverFrom_step cfg_max cfg_base env attempt lastErr tb pb now (by omega),
      runAttempt_render_err (env attempt) tb pb now m hf hr htb]
    have hlt : attempt < cfg_max := by omega
    simp only [if_pos hlt]
    have hrec := ih (attempt + 1)
      { tb with last_success_time := some now, failure_count := 0 } pb
      (now + ((cfg_base ^ attempt : Nat) : Int)) (some ("Template rendering error: " ++ m))
      (by omega) (by omega) htb
    obtain ⟨g1, g2, g3, g4, g5, g6, g7, g8⟩ := hrec
    refine ⟨g1, g2, by rw [g3], ?_, by rw [g5]; rfl, g6, g7, g8⟩
    rw [g4, List.range'_succ]
    simp

/-- Amended C2. When the template fetch succeeds and the render step fails
on every attempt (CLOSED template breaker), send_email does NOT stop at
the failing attempt: it retries through all max_retry_attempts inner
attempts with the usual back-off sleeps, and only then returns
(False, "Template rendering error: …"). The failure counts against no
circuit breaker: the provider breaker is untouched and the template
breaker ends CLOSED with failure_count 0 (each fetch succeeded), and the
provider is never invoked, so the Consumer then records status=failed. -/
theorem render_error_retried_without_breaker_count (cfg_max cfg_base : Nat)
    (env : Nat → AttemptEnv) (tb pb : CircuitBreaker) (now : Int) (m : String)
    (hmax : 1 ≤ cfg_max) (htb : tb.state = .closed)
    (henv : ∀ k, 1 ≤ k → k ≤ cfg_max →
      (env k).fetch = .ok ∧ (env k).render = .err m) :
    (sendEmail cfg_max cfg_base env tb pb now).ok = false ∧
    (sendEmail cfg_max cfg_base env tb pb now).error =
      some ("Template rendering error: " ++ m) ∧
    (sendEmail cfg_max cfg_base env tb pb now).attempts = cfg_max ∧
    (sendEmail cfg_max cfg_base env tb pb now).sleeps =
      (List.range' 1 (cfg_max - 1)).map (cfg_base ^ ·) ∧
    (sendEmail cfg_max cfg_base env tb pb now).providerAttempts = 0 ∧
    (sendEmail cfg_max cfg_base env tb pb now).pb = pb ∧
    (sendEmail cfg_max cfg_base env tb pb now).tb.failure_count = 0 ∧
    (sendEmail cfg_max cfg_base env tb pb now).tb.state = .closed := by
  have h := render_error_aux cfg_max cfg_base env m henv (cfg_max - 1)
    1 tb pb now none (by omega) (by omega) htb
  obtain ⟨g1, g2, g3, g4, g5, g6, g7, g8⟩ := h
  exact ⟨g1, g2, by simp only [sendEmail]; rw [g3]; omega, g4, g5, g6, g7, g8⟩

/-- Witness for the amended C2 at a concrete input (max 3, base 2, render
always failing): (False, error) after 3 attempts, sleeps 2 and 4, no
provider attempt, breakers not counted against. -/
theorem render_error_retried_without_breaker_count_witness :
    (sendEmail 3 2 envRenderBad tbIdle pbIdle 0).ok = false ∧
    (sendEmail 3 2 envRenderBad tbIdle pbIdle 0).error =
      some ("Template rendering error: " ++ "bad") ∧
    (sendEmail 3 2 envRenderBad tbIdle pbIdle 0).attempts = 3 ∧
    (sendEmail 3 2 envRenderBad tbIdle pbIdle 0).sleeps =
      (List.range' 1 (3 - 1)).map ((2 : Nat) ^ ·) ∧
    (sendEmail 3 2 envRenderBad tbIdle pbIdle 0).providerAttempts = 0 ∧
    (sendEmail 3 2 envRenderBad tbIdle pbIdle 0).pb = pbIdle ∧
    (sendEmail 3 2 envRenderBad tbIdle pbIdle 0).tb.failure_count = 0 ∧
    (sendEmail 3 2 envRenderBad tbIdle pbIdle 0).tb.state = .closed :=
  render_error_retried_without_breaker_count 3 2 envRenderBad tbIdle pbIdle 0 "bad"
    (by decide) (by decide) (fun k _ _ => ⟨rfl, rfl⟩)

/-- Per-invocation bound: one run of the retry loop makes at most `fuel`
provider invocations (at most one per loop iteration). -/
theorem deliverLoop_provider_le (cfg_max cfg_base : Nat) (env : Nat → AttemptEnv)
    (fuel : Nat) :
    ∀ (attempt : Nat) (lastErr : Option String) (tb pb : CircuitBreaker) (now : Int),
    (deliverLoop cfg_max cfg_base env fuel attempt lastErr tb pb now).providerAttempts
      ≤ fuel := by
  induction fuel with
  | zero =>
    intro attempt lastErr tb pb now
    exact Nat.le_refl 0
  | succ fuel ih =>
    intro attempt lastErr tb pb now
    simp only [deliverLoop]
    rcases hra : runAttempt (env attempt) tb pb now with ⟨tb', pb'⟩ |
      ⟨m, tb', pb'⟩ | ⟨m, pi, tb', pb'⟩
    · simp only [hra]
      exact Nat.succ_le_succ (Nat.zero_le fuel)
    · simp only [hra]
      exact Nat.zero_le _
    · simp only [hra]
      by_cases hlt : attempt < cfg_max

      · rw [if_pos hlt]
        have h := ih (attempt + 1) (some m) tb' pb'
          (now + ((cfg_base ^ attempt : Nat) : Int))
        cases pi
        · rw [show (if (false : Bool) = true then (1 : Nat) else 0) = 0 from rfl]
          dsimp only
          omega
        · rw [show (if (true : Bool) = true then (1 : Nat) else 0) = 1 from rfl]
          dsimp only
          omega
      · rw [if_neg hlt]
        cases pi <;> simp <;> omega

theorem consumeLoop_le (maxR B : Nat) (fuel : Nat) :
    ∀ (runs : Nat → EngineResult) (r : Nat),
    (∀ k, (runs k).providerAttempts ≤ B) →
    consumeLoop maxR fuel runs r ≤ B * (fuel + 1) := by
  induction fuel with
  | zero =>
    intro runs r h
    simpa using h 0
  | succ fuel ih =>
    intro runs r h
    have hmul : B * (fuel + 1 + 1) = B + B * (fuel + 1) := by ring
    simp only [consumeLoop]
    split
    · have := h 0
      omega
    · split
      · have h1 := h 0
        have h2 := ih (fun k => runs (k + 1)) (r + 1) (fun k => h (k + 1))
        omega
      · have := h 0
        omega

/-- C7. Summed over the initial delivery and every broker-level
republish, the provider is invoked at most
max_retry_attempts × (max_retry_attempts + 1) times for one job that
first enters the Consumer with retry_count = 0: each send_email
invocation makes at most max_retry_attempts provider attempts, and the
Consumer republishes only while retry_count < max_retry_attempts, each
republish incrementing retry_count by 1. The k-th consumption may use any
attempt environment, breaker states and clock. -/
theorem total_provider_attempts_bound (cfg_max cfg_base : Nat)
    (env : Nat → Nat → AttemptEnv) (tb pb : Nat → CircuitBreaker)
    (now : Nat → Int) :
    consumeChain cfg_max
      (fun k => sendEmail cfg_max cfg_base (env k) (tb k) (pb k) (now k)) 0 ≤
      cfg_max * (cfg_max + 1) := by
  have hB : ∀ k,
      (sendEmail cfg_max cfg_base (env k) (tb k) (pb k) (now k)).providerAttempts ≤
        cfg_max := by
    intro k
    exact deliverLoop_provider_le cfg_max cfg_base (env k) cfg_max 1 none
      (tb k) (pb k) (now k)
  exact consumeLoop_le cfg_max cfg_max (cfg_max - 0) _ 0 hB

/-- Every handler run ends with the ack of the consumed message. -/
theorem processMessage_ends_ack (max_retry : Nat) (cenv : ConsumerEnv)
    (channel_key : String) (job : Job) (ok : Bool) (err : Option String)
    (now : Int) :
    (processMessage max_retry cenv channel_key job ok err now).getLast? =
      some .ack := by
  unfold processMessage
  rw [List.getLast?_append_cons]
  rfl

/-- Counterexample for C1 as stated: a valid job with retry_count 0 on
which the engine returns not-ok, in a run where the requeue publish
raises, is acked with NO publish at all — the failed job is silently
dropped, because _requeue_message catches the publish exception and
_process_message then acks the original. -/
theorem ack_without_publish_on_publish_failure :
    (processMessage 3 envPublishFails "email" jobC1 false (some "boom") 0).filter
      ConsumerEvent.isPublish = [] ∧
    (processMessage 3 envPublishFails "email" jobC1 false (some "boom") 0).getLast? =
      some .ack ∧
    (processMessage 3 envPublishFails "email" jobC1 false (some "boom") 0) =
      [.setStatus "n1" .pending none 0, .setStatus "n1" .failed (some "boom") 0,
        .ack] := by
  refine ⟨rfl, rfl, rfl⟩

/-- Amended C1. When the exchange is set and the status-store writes and
exchange publishes succeed, the handler of a decoded job terminates in
exactly one of three ways, each ending in a single ack: ack after the
delivered status write; ack after the requeue publish (engine not-ok,
retry_count < max); ack after the dead-letter publish (engine not-ok,
retry_count ≥ max) — and in the two failure paths a publish strictly
precedes the ack, so no failed job is dropped. In runs where a publish
raises (or the exchange is unset) the original is still acked with no
publish, as the counterexample shows. -/
theorem consumer_three_ack_paths (max_retry : Nat) (channel_key : String)
    (job : Job) (ok : Bool) (err : Option String) (now : Int) :
    (ok = true →
      processMessage max_retry envAllGood channel_key job ok err now =
        [.setStatus job.notification_id .pending none job.retry_count,
         .setStatus job.notification_id .delivered none job.retry_count,
         .ack]) ∧
    (ok = false → job.retry_count < max_retry →
      processMessage max_retry envAllGood channel_key job ok err now =
        [.setStatus job.notification_id .pending none job.retry_count,
         .setStatus job.notification_id .failed err job.retry_count,
         .publishJob channel_key { job with retry_count := job.retry_count + 1 } true,
         .ack]) ∧
    (ok = false → ¬ job.retry_count < max_retry →
      processMessage max_retry envAllGood channel_key job ok err now =
        [.setStatus job.notification_id .pending none job.retry_count,
         .setStatus job.notification_id .failed err job.retry_count,
         .publishDLQ "failed"
           { job := job, final_error := err, failed_at := now } true,
         .ack]) := by
  refine ⟨?_, ?_, ?_⟩
  · intro hok
    subst hok
    simp [processMessage, updateStatus, envAllGood]
  · intro hok hlt
    subst hok
    simp [processMessage, updateStatus, requeueMessage, envAllGood, hlt]
  · intro hok hge
    subst hok
    simp [processMessage, updateStatus, sendToDlq, envAllGood, hge]

/-- Witness for the amended C1 at a concrete input: the requeue path for
jobC1 (retry_count 0 < 3) with all collaborators healthy. -/
theorem consumer_three_ack_paths_witness :
    processMessage 3 envAllGood "email" jobC1 false (some "boom") 0 =
      [.setStatus jobC1.notification_id .pending none jobC1.retry_count,
       .setStatus jobC1.notification_id .failed (some "boom") jobC1.retry_count,
       .publishJob "email" { jobC1 with retry_count := jobC1.retry_count + 1 } true,
       .ack] :=
  (consumer_three_ack_paths 3 "email" jobC1 false (some "boom") 0).2.1 rfl
    (by decide)

/-- C6. With the exchange set and publishes succeeding, a job on which
the engine returns not-ok is requeued exactly when retry_count <
max_retry_attempts: the only publish of the run is the job clone with
retry_count incremented by exactly 1, persistent, on the channel routing
key; otherwise the only publish is the dead-letter record (job fields
plus final_error and failed_at) on routing key "failed", persistent. In
both cases the run ends with the ack of the original, which follows the
publish. -/
theorem consumer_requeue_or_dlq (max_retry : Nat) (cenv : ConsumerEnv)
    (channel_key : String) (job : Job) (err : Option String) (now : Int)
    (hex : cenv.exchange_set = true) (hrq : cenv.requeue_publish_ok = true)
    (hdl : cenv.dlq_publish_ok = true) :
    (job.retry_count < max_retry →
      (processMessage max_retry cenv channel_key job false err now).filter
        ConsumerEvent.isPublish =
        [.publishJob channel_key
          { job with retry_count := job.retry_count + 1 } true]) ∧
    (¬ job.retry_count < max_retry →
      (processMessage max_retry cenv channel_key job false err now).filter
        ConsumerEvent.isPublish =
        [.publishDLQ "failed"
          { job := job, final_error := err, failed_at := now } true]) ∧
    (processMessage max_retry cenv channel_key job false err now).getLast? =
      some .ack := by
  refine ⟨?_, ?_, processMessage_ends_ack max_retry cenv channel_key job false err now⟩
  · intro hlt
    rcases hw : cenv.status_write_ok <;>
      simp [processMessage, updateStatus, requeueMessage, hex, hrq, hw, hlt,
        ConsumerEvent.isPublish]
  · intro hge
    rcases hw : cenv.status_write_ok <;>
      simp [processMessage, updateStatus, sendToDlq, hex, hdl, hw, hge,
        ConsumerEvent.isPublish]

/-- Witness for C6 at a concrete input: the dead-letter path for a job
with retry_count 3 = max_retry_attempts. -/
theorem consumer_requeue_or_dlq_witness :
    (processMessage 3 envAllGood "email" { jobC1 with retry_count := 3 } false
      (some "boom") 7).filter ConsumerEvent.isPublish =
      [.publishDLQ "failed"
        { job := { jobC1 with retry_count := 3 }, final_error := some "boom",
          failed_at := 7 } true] ∧
    (processMessage 3 envAllGood "email" { jobC1 with retry_count := 3 } false
      (some "boom") 7).getLast? = some .ack := by
  obtain ⟨_, h2, h3⟩ :=
    consumer_requeue_or_dlq 3 envAllGood "email" { jobC1 with retry_count := 3 }
      (some "boom") 7 rfl rfl rfl
  exact ⟨h2 (by decide), h3⟩

/-- Counterexample for C9 as stated: a job whose platform field is SET to
the empty string is not dispatched on that field — Python's `or` treats
"" as falsy, so the token heuristic decides and a 64-hex token goes to
the iOS vendor. -/
theorem empty_platform_falls_back_counterexample :
    chosenPlatform (some "") hexToken64 = "ios" ∧
    chosenPlatform (some "") hexToken64 ≠ "" ∧
    chosenVendor (some "") hexToken64 = .apns := by
  refine ⟨by decide, by decide, by decide⟩

/-- Amended C9. The dispatch platform is the job's platform field when it
is set to a non-empty string (None or "" fall back to the heuristic);
with the field absent it is "ios" exactly when the push_token is 64
characters, all hexadecimal, and "android" otherwise. A job with
platform = "android" is sent via the Android vendor (FCM) regardless of
token shape, and one with a 64-hex-character token and platform absent is
sent via the iOS vendor (APNS). -/
theorem platform_dispatch (p token : String) (hp : p ≠ "") :
    chosenPlatform (some p) token = p ∧
    (chosenPlatform none token = "ios" ↔
      (token.length = 64 ∧ token.toList.all isHexTokenChar = true)) ∧
    (chosenPlatform none token ≠ "ios" → chosenPlatform none token = "android") ∧
    chosenVendor (some "android") token = .fcm ∧
    ((token.length = 64 ∧ token.toList.all isHexTokenChar = true) →
      chosenVendor none token = .apns) := by
  refine ⟨?_, ?_, ?_, ?_, ?_⟩
  · simp [chosenPlatform, hp]
  · unfold chosenPlatform detectPlatform
    by_cases h : token.length = 64 ∧ token.toList.all isHexTokenChar = true
    · obtain ⟨h1, h2⟩ := h
      simp [h1, h2]
    · constructor
      · intro hios
        by_contra hne
        rw [if_neg ?_] at hios
        · exact absurd hios (by decide)
        · simp only [Bool.and_eq_true, decide_eq_true_eq]
          intro hcl
          exact h ⟨hcl.1, hcl.2⟩
      · intro hc
        exact absurd hc h
  · unfold chosenPlatform detectPlatform
    by_cases h : (token.length = 64 && token.toList.all isHexTokenChar) = true
    · simp [h]
    · simp [h]
  · unfold chosenVendor chosenPlatform
    simp
  · intro h
    unfold chosenVendor chosenPlatform detectPlatform
    simp [h.1, h.2]
    simpa using List.all_eq_true.mp h.2

/-- Witness for the amended C9 at concrete inputs: platform "android" and
the 64-hex token. -/
theorem platform_dispatch_witness :
    chosenPlatform (some "android") hexToken64 = "android" ∧
    (chosenPlatform none hexToken64 = "ios" ↔
      (hexToken64.length = 64 ∧ hexToken64.toList.all isHexTokenChar = true)) ∧
    (chosenPlatform none hexToken64 ≠ "ios" →
      chosenPlatform none hexToken64 = "android") ∧
    chosenVendor (some "android") hexToken64 = .fcm ∧
    ((hexToken64.length = 64 ∧ hexToken64.toList.all isHexTokenChar = true) →
      chosenVendor none hexToken64 = .apns) :=
  platform_dispatch "android" hexToken64 (by decide)
